import Mathlib

/-!
Shallow embedding of the CA Chatbot widget client controller.

The embedded code is `src/ca-chatbot-widget.js` (class `CAChatbotWidget`:
constructor, `checkAPIHealth`, `addMessage`, `createSourcesHTML`,
`sendMessage`, the open/close/toggle operations) and the embed script
(class `CAEmbedWidget` in `src/unnamed/part_003`: `addMessage`,
`sendMessage`).

Modelling conventions:
* The DOM message container is the Message Store; it is modelled as a list
  of message records, and `addMessage` is an append at the end.
* An `async` method is a function of the widget state and of the outcome
  the network delivers at its suspension points.  A fetch that rejects, a
  body whose JSON parsing rejects, and a settled response (with its `ok`
  flag and parsed body) are the three outcome shapes.
* Parsed JSON bodies are records of `Option` fields (`none` = the field is
  absent / `undefined`).  JavaScript template-literal interpolation of an
  undefined field produces the text "undefined" (`jsInterp`); `v || d`
  on a string field falls back on absent or empty (`jsOr`); truthiness of
  a string field is presence and non-emptiness (`optTruthy`).
-/

/-- A JavaScript primitive value, as far as the constructor option
`options.webSearchEnabled` needs distinguishing. -/
inductive JSVal where
  | undef
  | jsNull
  | bool (b : Bool)
  | num (n : Int)
  | str (s : String)
deriving DecidableEq

/-- `this.webSearchEnabled = options.webSearchEnabled !== false;`
(ca-chatbot-widget.js line 9).  Strict inequality against the boolean
`false`: values of any other type compare unequal. -/
def webSearchEnabledOf (v : JSVal) : Bool :=
  !(v == JSVal.bool false)

/-- Message roles: the widget renders `user` and `bot` (assistant) bubbles. -/
inductive Role where
  | user
  | assistant
deriving DecidableEq

/-- A source record of a chat response body (`data.sources[i]`), with the
fields `createSourcesHTML` reads.  `none` models an absent field. -/
structure SourceRec where
  type : Option String
  url : Option String
  title : Option String
  source : Option String
deriving DecidableEq

/-- A stored message of the main widget: role, bubble text, and the sources
value `addMessage` received (`null`/absent modelled as `none`). -/
structure Message where
  role : Role
  content : String
  sources : Option (List SourceRec)
deriving DecidableEq

/-- The connection status label (`Connecting...` / `Online` / `Offline`). -/
inductive ConnStatus where
  | connecting
  | online
  | offline
deriving DecidableEq

/-- The state of a `CAChatbotWidget` instance: the message container, the
open/loading flags, the input field text, the web-search toggle, the
connection status line, and a count of health probes issued so far (each
`checkAPIHealth()` call issues one `GET /health`). -/
structure WState where
  messages : List Message
  isOpen : Bool
  isLoading : Bool
  input : String
  webSearchEnabled : Bool
  connectionStatus : ConnStatus
  probesIssued : Nat
deriving DecidableEq

/-- Parsed `GET /health` response body: the `status` field. -/
structure HealthBody where
  status : Option String
deriving DecidableEq

/-- How a health probe settles: the fetch rejects, `response.json()`
rejects, or a response arrives with its `ok` flag and parsed body. -/
inductive HealthOutcome where
  | transportFailed (msg : String)
  | parseFailed (msg : String)
  | settled (ok : Bool) (body : HealthBody)
deriving DecidableEq

/-- `checkAPIHealth` (ca-chatbot-widget.js lines 496-511): sets the status
line to Online when `response.ok && data.status === 'healthy'`, and to
Offline on every other path (the `else` throws into the `catch`, and a
rejected fetch or JSON parse lands there directly).  It touches no other
state. -/
def checkAPIHealth (s : WState) (h : HealthOutcome) : WState :=
  { s with
    probesIssued := s.probesIssued + 1,
    connectionStatus :=
      match h with
      | HealthOutcome.settled ok body =>
          if ok ∧ body.status = some "healthy" then ConnStatus.online
          else ConnStatus.offline
      | HealthOutcome.transportFailed _ => ConnStatus.offline
      | HealthOutcome.parseFailed _ => ConnStatus.offline }

/-- Parsed `POST /api/chat` response body: the fields the widget reads. -/
structure ChatBody where
  response : Option String
  sources : Option (List SourceRec)
  detail : Option String
deriving DecidableEq

/-- How a chat request settles: the fetch rejects, `response.json()`
rejects, or a response arrives with its `ok` flag and parsed body. -/
inductive ChatOutcome where
  | transportFailed (msg : String)
  | parseFailed (msg : String)
  | settled (ok : Bool) (data : ChatBody)
deriving DecidableEq

/-- Template-literal interpolation of a possibly-absent string field:
an `undefined` field renders as the text "undefined". -/
def jsInterp : Option String → String
  | some s => s
  | none => "undefined"

/-- JavaScript `v || dflt` on an optional string field: the fallback is
taken when the field is absent or the empty string (falsy). -/
def jsOr : Option String → String → String
  | some s, d => if s = "" then d else s
  | none, d => d

/-- JavaScript truthiness of an optional string field: present and
non-empty. -/
def optTruthy : Option String → Bool
  | some s => s != ""
  | none => false

/-- The apostrophe character (kept out of string literals). -/
def apos : String := String.singleton (Char.ofNat 39)

/-- JavaScript `String.prototype.trim()`: strip leading and trailing
whitespace.  Defined structurally over the character list so that concrete
inputs evaluate inside the kernel. -/
def jsTrim (s : String) : String :=
  ⟨((s.data.dropWhile Char.isWhitespace).reverse.dropWhile Char.isWhitespace).reverse⟩

/-- The failure notice for a non-2xx chat response (line 602):
`Sorry, I encountered an error: ${data.detail || 'Unknown error'}`. -/
def errorNotice (data : ChatBody) : String :=
  "Sorry, I encountered an error: " ++ jsOr data.detail "Unknown error"

/-- The failure notice when the fetch or the JSON parse throws (line 605):
the offline message with the error text interpolated. -/
def offlineNotice (errMsg : String) : String :=
  "I" ++ apos ++ "m currently offline. Please try again later. (" ++ errMsg ++ ")"

/-- What one source item renders as: a hyperlink (title + url) or a plain
label. -/
inductive RenderedSource where
  | link (url title : String)
  | label (text : String)
deriving DecidableEq

/-- Whether a rendered source item is a hyperlink. -/
def RenderedSource.isLink : RenderedSource → Bool
  | RenderedSource.link _ _ => true
  | RenderedSource.label _ => false

/-- The branch choice inside `createSourcesHTML`'s map (lines 533-546):
`if (source.type === 'web' && source.url)` renders an anchor from the url
and title fields, else a span holding `source.source || 'Document'`. -/
def renderChoice (source : SourceRec) : RenderedSource :=
  if source.type = some "web" ∧ optTruthy source.url then
    RenderedSource.link (jsInterp source.url) (jsInterp source.title)
  else
    RenderedSource.label (jsOr source.source "Document")

/-- The markup of one source item (the two template literals of
`createSourcesHTML`, whitespace elided). -/
def renderHTML : RenderedSource → String
  | RenderedSource.link url title =>
      "<div class=\"ca-source-item\">üåê <a href=\"" ++ url ++
        "\" target=\"_blank\" class=\"ca-source-link\">" ++ title ++
        "</a></div>"
  | RenderedSource.label text =>
      "<div class=\"ca-source-item\">üìÑ <span class=\"ca-source-link\">" ++
        text ++ "</span></div>"

/-- `createSourcesHTML` (lines 530-555): empty output on a missing or empty
sources value; otherwise the wrapper around `sources.slice(0, 3).map(...)`
joined with the empty separator. -/
def createSourcesHTML : Option (List SourceRec) → String
  | none => ""
  | some sources =>
      if sources.length = 0 then ""
      else
        "<div class=\"ca-sources\"><div class=\"ca-sources-header\">Sources:</div>" ++
          String.join ((sources.take 3).map fun s => renderHTML (renderChoice s)) ++
          "</div>"

/-- `addMessage` (lines 513-528): appends one message node at the end of
the message container. -/
def addMessage (s : WState) (content : String) (isUser : Bool)
    (sources : Option (List SourceRec)) : WState :=
  { s with
    messages := s.messages ++
      [{ role := if isUser then Role.user else Role.assistant,
         content := content, sources := sources }] }

/-- `sendMessage` (lines 567-611).  Guard: `if (!message || this.isLoading)
return;` on the trimmed input.  When admitted: append the user message,
clear the input, set the loading flag, issue the request; on `response.ok`
append the assistant message from `data.response` / `data.sources` and call
`checkAPIHealth()`; on a non-2xx response append the error notice; when the
fetch or JSON parse rejects append the offline notice; `finally` clears the
loading flag.  Returns the settled state and whether a request was
issued. -/
def sendMessage (s : WState) (outcome : ChatOutcome) (probe : HealthOutcome) :
    WState × Bool :=
  let message := jsTrim s.input
  if message = "" ∨ s.isLoading then (s, false)
  else
    let s1 := { addMessage s message true none with input := "" }
    let s2 := { s1 with isLoading := true }
    let s3 :=
      match outcome with
      | ChatOutcome.settled true data =>
          checkAPIHealth (addMessage s2 (jsInterp data.response) false data.sources) probe
      | ChatOutcome.settled false data =>
          addMessage s2 (errorNotice data) false none
      | ChatOutcome.transportFailed m =>
          addMessage s2 (offlineNotice m) false none
      | ChatOutcome.parseFailed m =>
          addMessage s2 (offlineNotice m) false none
    ({ s3 with isLoading := false }, true)

/-- `openChat` (lines 459-463): sets the open flag. -/
def openChat (s : WState) : WState := { s with isOpen := true }

/-- `closeChat` (lines 465-468): clears the open flag. -/
def closeChat (s : WState) : WState := { s with isOpen := false }

/-- `toggleChat` (lines 451-457). -/
def toggleChat (s : WState) : WState :=
  if s.isOpen then closeChat s else openChat s

/-- `toggleWebSearch` (lines 470-482): flips the web-search flag. -/
def toggleWebSearch (s : WState) : WState :=
  { s with webSearchEnabled := !s.webSearchEnabled }

/-- The constructor (lines 7-15) followed by `init()`'s startup
`checkAPIHealth()` call (line 24): fresh empty state with the web-search
flag from the options object, then one health probe. -/
def mkWidget (webSearchOption : JSVal) (startupProbe : HealthOutcome) : WState :=
  checkAPIHealth
    { messages := [], isOpen := false, isLoading := false, input := "",
      webSearchEnabled := webSearchEnabledOf webSearchOption,
      connectionStatus := ConnStatus.connecting, probesIssued := 0 }
    startupProbe

/-- N sequential sends: each entry is the text typed into the input field
together with the outcomes its chat request (and the health probe a success
triggers) settle with, the request settling before the next send. -/
def runSends (s : WState) : List (String × ChatOutcome × HealthOutcome) → WState
  | [] => s
  | (m, o, p) :: rest => runSends (sendMessage { s with input := m } o p).1 rest

/-- A stored message of the embed widget (`CAEmbedWidget.addMessage` keeps
role and bubble text only). -/
structure EmbedMessage where
  role : Role
  content : String
deriving DecidableEq

/-- The state of a `CAEmbedWidget` instance (src/unnamed/part_003). -/
structure EState where
  messages : List EmbedMessage
  isOpen : Bool
  isLoading : Bool
  input : String
deriving DecidableEq

/-- `CAEmbedWidget.addMessage` (part_003 lines 311-319): appends one
message node at the end of the container. -/
def embedAddMessage (s : EState) (content : String) (isUser : Bool) : EState :=
  { s with
    messages := s.messages ++
      [{ role := if isUser then Role.user else Role.assistant, content := content }] }

/-- The prefix of `CAEmbedWidget.sendMessage` (part_003 lines 321-334)
before the `await`: append the user message, clear the input, set the
loading flag, append the `Thinking...` placeholder message.  The guard is
applied by `embedSendMessage`. -/
def embedBeginSend (s : EState) : EState :=
  let s1 := { embedAddMessage s (jsTrim s.input) true with input := "" }
  embedAddMessage { s1 with isLoading := true } "Thinking..." false

/-- The reply text the embed widget appends once the request settles
(part_003 lines 353-362). -/
def embedReply : ChatOutcome → String
  | ChatOutcome.settled true data => jsInterp data.response
  | ChatOutcome.settled false _ => "Sorry, I encountered an error. Please try again."
  | ChatOutcome.transportFailed _ =>
      "I" ++ apos ++ "m currently offline. Please try again later."
  | ChatOutcome.parseFailed _ =>
      "I" ++ apos ++ "m currently offline. Please try again later."

/-- The continuation of `CAEmbedWidget.sendMessage` after the request
settles (part_003 lines 347-366): every path first removes the last child
(the `Thinking...` placeholder), then appends the reply, and the `finally`
clears the loading flag. -/
def embedCompleteSend (s : EState) (outcome : ChatOutcome) : EState :=
  { embedAddMessage { s with messages := s.messages.dropLast }
      (embedReply outcome) false
    with isLoading := false }

/-- `CAEmbedWidget.sendMessage` (part_003 lines 321-367): the guard
`if (!message || this.isLoading) return;`, then the pre-await phase and,
once the request settles, the completion phase. -/
def embedSendMessage (s : EState) (outcome : ChatOutcome) : EState :=
  if jsTrim s.input = "" ∨ s.isLoading then s
  else embedCompleteSend (embedBeginSend s) outcome

/-! ## Shared concrete states and bodies -/

/-- A fresh main-widget state with an admissible candidate message. -/
def wsBase : WState :=
  { messages := [], isOpen := true, isLoading := false, input := "hello",
    webSearchEnabled := true, connectionStatus := ConnStatus.connecting,
    probesIssued := 0 }

/-- A healthy probe outcome: 2xx and `{status: "healthy"}`. -/
def hpHealthy : HealthOutcome := HealthOutcome.settled true { status := some "healthy" }

/-- A parsable chat body with none of the expected fields. -/
def emptyBody : ChatBody := { response := none, sources := none, detail := none }

/-- A successful chat body. -/
def okBody : ChatBody := { response := some "GST is...", sources := none, detail := none }

/-- A fresh embed-widget state with an admissible candidate message. -/
def esBase : EState :=
  { messages := [], isOpen := true, isLoading := false, input := "hello" }

/-! ## Helper lemmas about an admitted send -/

/-- The assistant message an admitted `sendMessage` appends, by outcome. -/
def replyMessage : ChatOutcome → Message
  | ChatOutcome.settled true data =>
      { role := Role.assistant, content := jsInterp data.response, sources := data.sources }
  | ChatOutcome.settled false data =>
      { role := Role.assistant, content := errorNotice data, sources := none }
  | ChatOutcome.transportFailed m =>
      { role := Role.assistant, content := offlineNotice m, sources := none }
  | ChatOutcome.parseFailed m =>
      { role := Role.assistant, content := offlineNotice m, sources := none }

lemma replyMessage_role (o : ChatOutcome) : (replyMessage o).role = Role.assistant := by
  cases o with
  | settled ok data => cases ok <;> rfl
  | transportFailed m => rfl
  | parseFailed m => rfl

/-- Whether a chat outcome is a success (2xx with a parsed body). -/
def isSuccess : ChatOutcome → Bool
  | ChatOutcome.settled true _ => true
  | _ => false

/-- An admitted send appends exactly the user message and one assistant
reply, releases the loading flag, reports that a request was issued, and
triggers a follow-up health probe exactly on success. -/
lemma sendMessage_admitted (s : WState) (o : ChatOutcome) (p : HealthOutcome)
    (h1 : jsTrim s.input ≠ "") (h2 : s.isLoading = false) :
    (sendMessage s o p).1.messages
      = s.messages ++
          [{ role := Role.user, content := jsTrim s.input, sources := none },
           replyMessage o]
    ∧ (sendMessage s o p).1.isLoading = false
    ∧ (sendMessage s o p).2 = true
    ∧ (sendMessage s o p).1.probesIssued
        = s.probesIssued + (if isSuccess o then 1 else 0) := by
  have hg : ¬ (jsTrim s.input = "" ∨ s.isLoading = true) := by
    simp [h1, h2]
  cases o with
  | settled ok data =>
      cases ok <;>
        simp [sendMessage, hg, addMessage, checkAPIHealth, replyMessage, isSuccess,
          List.append_assoc]
  | transportFailed m =>
      simp [sendMessage, hg, addMessage, replyMessage, isSuccess, List.append_assoc]
  | parseFailed m =>
      simp [sendMessage, hg, addMessage, replyMessage, isSuccess, List.append_assoc]

/-! ## The claims -/

/-- C1: when the widget is loading or the candidate input is empty after
trimming, `sendMessage` is a no-op: the state (hence the Message Store and
its length) is unchanged and no network request is issued. -/
theorem c1_send_guard_noop (s : WState) (o : ChatOutcome) (p : HealthOutcome)
    (h : s.isLoading = true ∨ jsTrim s.input = "") :
    sendMessage s o p = (s, false) := by
  rcases h with h | h <;> simp [sendMessage, h]

theorem c1_send_guard_noop_witness :
    sendMessage { wsBase with isLoading := true }
        (ChatOutcome.transportFailed "boom") hpHealthy
      = ({ wsBase with isLoading := true }, false) :=
  c1_send_guard_noop _ _ _ (Or.inl rfl)

/-- C2: whenever `sendMessage` actually issued a request — whatever the
outcome: success, API error, or a transport/parse failure — the loading
flag is false after it completes, and a subsequent send with a non-empty
trimmed input is admitted again. -/
theorem c2_loading_released (s : WState) (o : ChatOutcome) (p : HealthOutcome)
    (next : String) (o2 : ChatOutcome) (p2 : HealthOutcome)
    (h : (sendMessage s o p).2 = true) (hnext : jsTrim next ≠ "") :
    (sendMessage s o p).1.isLoading = false
    ∧ (sendMessage { (sendMessage s o p).1 with input := next } o2 p2).2 = true := by
  by_cases hg : jsTrim s.input = "" ∨ s.isLoading = true
  · exact absurd h (by simp [sendMessage, hg])
  · obtain ⟨hA, hB⟩ := not_or.mp hg
    have h2 : s.isLoading = false := by simpa using hB
    obtain ⟨_, hload, _, _⟩ := sendMessage_admitted s o p hA h2
    refine ⟨hload, ?_⟩
    exact (sendMessage_admitted { (sendMessage s o p).1 with input := next }
      o2 p2 hnext hload).2.2.1

theorem c2_loading_released_witness :
    (sendMessage wsBase (ChatOutcome.settled false emptyBody) hpHealthy).1.isLoading = false
    ∧ (sendMessage
          { (sendMessage wsBase (ChatOutcome.settled false emptyBody) hpHealthy).1
            with input := "next question" }
          (ChatOutcome.transportFailed "Failed to fetch") hpHealthy).2 = true :=
  c2_loading_released wsBase _ hpHealthy "next question" _ hpHealthy
    (by decide) (by decide)

/-- The user message an admitted send appends for typed input `m`. -/
def userMessageOf (m : String) : Message :=
  { role := Role.user, content := jsTrim m, sources := none }

lemma runSends_messages (l : List (String × ChatOutcome × HealthOutcome)) :
    ∀ s : WState, s.isLoading = false → (∀ x ∈ l, jsTrim x.1 ≠ "") →
      (runSends s l).messages
        = s.messages ++ (l.map fun x => [userMessageOf x.1, replyMessage x.2.1]).flatten
      ∧ (runSends s l).isLoading = false := by
  induction l with
  | nil =>
      intro s h _
      exact ⟨by simp [runSends], h⟩
  | cons hd tl ih =>
      intro s hload hne
      obtain ⟨m, o, p⟩ := hd
      have h1 : jsTrim ({ s with input := m } : WState).input ≠ "" :=
        hne (m, o, p) (by simp)
      have h2 : ({ s with input := m } : WState).isLoading = false := hload
      obtain ⟨hmsg, hl2, _, _⟩ := sendMessage_admitted { s with input := m } o p h1 h2
      obtain ⟨hmsg2, hl3⟩ := ih (sendMessage { s with input := m } o p).1 hl2
        (fun x hx => hne x (List.mem_cons_of_mem _ hx))
      refine ⟨?_, by simpa [runSends] using hl3⟩
      show (runSends (sendMessage { s with input := m } o p).1 tl).messages = _
      rw [hmsg2, hmsg]
      simp [userMessageOf, List.append_assoc]

lemma pairs_join_length (l : List (String × ChatOutcome × HealthOutcome)) :
    ((l.map fun x => [userMessageOf x.1, replyMessage x.2.1]).flatten).length
      = 2 * l.length := by
  induction l with
  | nil => rfl
  | cons hd tl ih => simp [ih]; omega

lemma pairs_join_roles (l : List (String × ChatOutcome × HealthOutcome)) :
    ((l.map fun x => [userMessageOf x.1, replyMessage x.2.1]).flatten).map Message.role
      = (List.replicate l.length [Role.user, Role.assistant]).flatten := by
  induction l with
  | nil => rfl
  | cons hd tl ih =>
      simp only [List.map_cons, List.flatten_cons, List.map_append, List.length_cons,
        List.replicate_succ]
      rw [ih]
      simp [userMessageOf, replyMessage_role]

/-- C3: after N sequential sends with non-empty trimmed text, each settling
before the next, the Message Store holds exactly 2N messages in strict
alternating user/assistant order. -/
theorem c3_transcript_shape (s : WState) (l : List (String × ChatOutcome × HealthOutcome))
    (hm : s.messages = []) (hl : s.isLoading = false)
    (hne : ∀ x ∈ l, jsTrim x.1 ≠ "") :
    (runSends s l).messages.length = 2 * l.length
    ∧ (runSends s l).messages.map Message.role
        = (List.replicate l.length [Role.user, Role.assistant]).flatten := by
  obtain ⟨hmsg, _⟩ := runSends_messages l s hl hne
  rw [hmsg, hm, List.nil_append]
  exact ⟨pairs_join_length l, pairs_join_roles l⟩

/-- The two-send sample: one success, then one transport failure. -/
def sendsSample : List (String × ChatOutcome × HealthOutcome) :=
  [("What is GST?", ChatOutcome.settled true okBody, hpHealthy),
   ("PAN requirements", ChatOutcome.transportFailed "Failed to fetch", hpHealthy)]

theorem c3_transcript_shape_witness :
    (runSends wsBase sendsSample).messages.length = 2 * sendsSample.length
    ∧ (runSends wsBase sendsSample).messages.map Message.role
        = (List.replicate sendsSample.length [Role.user, Role.assistant]).flatten :=
  c3_transcript_shape wsBase sendsSample rfl rfl (by decide)

/-- C4 counterexample: a 2xx response whose parsable body has no `response`
field does NOT behave like a failed request.  From the same state, the
missing-field success appends an assistant message whose content is the
text "undefined" (the interpolation of the missing field), while the
non-2xx outcome with the same body appends the failure notice: the two
behaviours differ, and no failure notice is produced in the first. -/
theorem c4_counterexample :
    (sendMessage wsBase (ChatOutcome.settled true emptyBody) hpHealthy).1.messages.map
        Message.content = ["hello", "undefined"]
    ∧ (sendMessage wsBase (ChatOutcome.settled false emptyBody) hpHealthy).1.messages.map
        Message.content
      = ["hello", "Sorry, I encountered an error: Unknown error"] := by
  decide

/-- C4 amended: on a 2xx response with a parsable body lacking the
`response` field, the client appends a single assistant message whose
content is the literal text "undefined" (the rendering of the missing
field), with the body's `sources` value attached; the outcome is not
converted into a failure notice. -/
theorem c4_missing_field_renders_undefined (s : WState) (p : HealthOutcome)
    (sources : Option (List SourceRec)) (detail : Option String)
    (h1 : jsTrim s.input ≠ "") (h2 : s.isLoading = false) :
    (sendMessage s
        (ChatOutcome.settled true
          { response := none, sources := sources, detail := detail }) p).1.messages
      = s.messages ++
          [{ role := Role.user, content := jsTrim s.input, sources := none },
           { role := Role.assistant, content := "undefined", sources := sources }] := by
  have h := (sendMessage_admitted s
    (ChatOutcome.settled true { response := none, sources := sources, detail := detail })
    p h1 h2).1
  simpa [replyMessage, jsInterp] using h

theorem c4_missing_field_renders_undefined_witness :
    (sendMessage wsBase
        (ChatOutcome.settled true { response := none, sources := none, detail := none })
        hpHealthy).1.messages
      = [{ role := Role.user, content := "hello", sources := none },
         { role := Role.assistant, content := "undefined", sources := none }] := by
  rw [c4_missing_field_renders_undefined wsBase hpHealthy none none (by decide) rfl]
  decide

/-- C5 counterexample: a completed chat exchange that fails (non-2xx) does
not trigger a fresh health probe: a request was issued, the widget started
with zero probes issued, and after the exchange the count is still zero. -/
theorem c5_counterexample :
    (sendMessage wsBase (ChatOutcome.settled false emptyBody) hpHealthy).2 = true
    ∧ wsBase.probesIssued = 0
    ∧ (sendMessage wsBase (ChatOutcome.settled false emptyBody) hpHealthy).1.probesIssued
        = 0 := by
  decide

/-- C5 amended: one health probe is issued at widget startup, and after a
chat exchange a fresh probe is triggered exactly when the exchange
succeeded (2xx with a parsable body); failed exchanges — non-2xx,
transport failure, or an unparsable body — trigger none. -/
theorem c5_probe_on_success_only (v : JSVal) (hp0 : HealthOutcome)
    (s : WState) (o : ChatOutcome) (p : HealthOutcome)
    (h1 : jsTrim s.input ≠ "") (h2 : s.isLoading = false) :
    (mkWidget v hp0).probesIssued = 1
    ∧ (sendMessage s o p).1.probesIssued
        = s.probesIssued + (if isSuccess o then 1 else 0) :=
  ⟨rfl, (sendMessage_admitted s o p h1 h2).2.2.2⟩

theorem c5_probe_on_success_only_witness :
    (mkWidget (JSVal.bool true) hpHealthy).probesIssued = 1
    ∧ (sendMessage wsBase (ChatOutcome.settled true okBody) hpHealthy).1.probesIssued
        = wsBase.probesIssued
            + (if isSuccess (ChatOutcome.settled true okBody) then 1 else 0) :=
  c5_probe_on_success_only (JSVal.bool true) hpHealthy wsBase
    (ChatOutcome.settled true okBody) hpHealthy (by decide) rfl

/-- C6: a health probe sets the connection status to online exactly when
the response is 2xx with a parsed body whose `status` field is "healthy";
every other outcome — non-2xx, unparsable body, transport failure, or any
other status value — sets it to offline, and a probe never modifies the
Message Store. -/
theorem c6_health_classification (s : WState) (h : HealthOutcome) :
    ((checkAPIHealth s h).connectionStatus = ConnStatus.online
        ↔ ∃ body, h = HealthOutcome.settled true body ∧ body.status = some "healthy")
    ∧ (checkAPIHealth s h).messages = s.messages
    ∧ ((checkAPIHealth s h).connectionStatus = ConnStatus.online
        ∨ (checkAPIHealth s h).connectionStatus = ConnStatus.offline) := by
  refine ⟨?_, rfl, ?_⟩
  · cases h with
    | transportFailed m => simp [checkAPIHealth]
    | parseFailed m => simp [checkAPIHealth]
    | settled ok body =>
        cases ok with
        | false => simp [checkAPIHealth]
        | true =>
            by_cases hs : body.status = some "healthy" <;>
              simp [checkAPIHealth, hs]
  · cases h with
    | transportFailed m => exact Or.inr rfl
    | parseFailed m => exact Or.inr rfl
    | settled ok body =>
        by_cases hc : ok = true ∧ body.status = some "healthy"
        · exact Or.inl (by simp [checkAPIHealth, hc.1, hc.2])
        · refine Or.inr ?_
          simp only [checkAPIHealth]
          rw [if_neg ?_]
          intro hcon
          exact hc ⟨hcon.1, hcon.2⟩

/-- C7: `createSourcesHTML` retains at most the first 3 supplied sources,
in their original relative order (the retained list is a prefix of the
supplied one), and supplying more than 3 is not an error: the output
equals the output for the first 3 alone. -/
theorem c7_sources_truncated (l : List SourceRec) :
    (l.take 3).length ≤ 3
    ∧ (l.take 3) <+: l
    ∧ createSourcesHTML (some l) = createSourcesHTML (some (l.take 3)) := by
  refine ⟨?_, List.take_prefix 3 l, ?_⟩
  · simp [List.length_take]
  · by_cases hl : l.length = 0
    · have hnil : l = [] := List.length_eq_zero.mp hl
      subst hnil; rfl
    · have hne : ¬ ((l.take 3).length = 0) := by
        simp only [List.length_take]
        omega
      simp [createSourcesHTML, hl, hne, List.take_take]

/-- C8 counterexample: the embed widget is not append-only.  From a fresh
state with input "hello", the pre-await phase of a send stores the
`Thinking...` placeholder message; after the request settles the stored
sequence no longer contains it (it was removed), and the pre-await store is
not a prefix of the final store. -/
theorem c8_counterexample :
    ({ role := Role.assistant, content := "Thinking..." } : EmbedMessage)
        ∈ (embedBeginSend esBase).messages
    ∧ ({ role := Role.assistant, content := "Thinking..." } : EmbedMessage)
        ∉ (embedSendMessage esBase (ChatOutcome.settled true okBody)).messages
    ∧ ¬ ((embedBeginSend esBase).messages
          <+: (embedSendMessage esBase (ChatOutcome.settled true okBody)).messages) := by
  decide

/-- An admitted embed send settles to the start store plus exactly the user
message and the reply: the placeholder it appended in between is gone. -/
lemma embed_send_messages (se : EState) (oe : ChatOutcome) :
    (embedCompleteSend (embedBeginSend se) oe).messages
      = se.messages ++
          [{ role := Role.user, content := jsTrim se.input },
           { role := Role.assistant, content := embedReply oe }] := by
  simp [embedCompleteSend, embedBeginSend, embedAddMessage]

/-- C8 amended: relative to the state an operation starts from, every
operation of the main widget and of the embed widget only appends to the
Message Store (open/close/toggle and a health probe leave it unchanged);
the one exception inside an operation is the embed widget's transient
`Thinking...` placeholder: the message removed when the request settles is
exactly the last stored one (the placeholder), and the reply is then
appended. -/
theorem c8_append_only (s : WState) (o : ChatOutcome) (p : HealthOutcome)
    (h : HealthOutcome) (se : EState) (oe : ChatOutcome) :
    s.messages <+: (sendMessage s o p).1.messages
    ∧ (checkAPIHealth s h).messages = s.messages
    ∧ (openChat s).messages = s.messages
    ∧ (closeChat s).messages = s.messages
    ∧ (toggleChat s).messages = s.messages
    ∧ (toggleWebSearch s).messages = s.messages
    ∧ se.messages <+: (embedSendMessage se oe).messages
    ∧ (embedCompleteSend (embedBeginSend se) oe).messages
        = (embedBeginSend se).messages.dropLast
            ++ [{ role := Role.assistant, content := embedReply oe }] := by
  refine ⟨?_, rfl, rfl, rfl, ?_, rfl, ?_, ?_⟩
  · by_cases hg : jsTrim s.input = "" ∨ s.isLoading = true
    · simp [sendMessage, hg]
    · obtain ⟨hA, hB⟩ := not_or.mp hg
      have h2 : s.isLoading = false := by simpa using hB
      rw [(sendMessage_admitted s o p hA h2).1]
      exact ⟨_, rfl⟩
  · unfold toggleChat
    split <;> rfl
  · by_cases hg : jsTrim se.input = "" ∨ se.isLoading = true
    · simp [embedSendMessage, hg]
    · have hrun : embedSendMessage se oe = embedCompleteSend (embedBeginSend se) oe := by
        simp [embedSendMessage, hg]
      rw [hrun, embed_send_messages se oe]
      exact List.prefix_append _ _
  · rfl

/-- A source with type "web" whose url field is present but empty. -/
def webEmptyUrl : SourceRec :=
  { type := some "web", url := some "", title := some "GST Portal",
    source := some "gst.gov.in" }

/-- C9 counterexample: a source whose `type` is "web" and whose `url` field
is present (the empty string) is NOT rendered as a hyperlink: the rendering
branch yields the plain non-link label from its `source` field. -/
theorem c9_counterexample :
    webEmptyUrl.type = some "web"
    ∧ webEmptyUrl.url ≠ none
    ∧ (renderChoice webEmptyUrl).isLink = false
    ∧ renderChoice webEmptyUrl = RenderedSource.label "gst.gov.in" := by
  decide

/-- C9 amended: a source item is rendered as a hyperlink (from its url and
title fields) if and only if its `type` equals "web" AND its `url` field is
present and non-empty; every other source — including type "web" with an
absent or empty url — is rendered as a plain non-link label equal to its
`source` field, falling back to the literal text "Document" when that field
is absent or empty. -/
theorem c9_render_branch (src : SourceRec) :
    ((renderChoice src).isLink = true
        ↔ (src.type = some "web" ∧ optTruthy src.url = true))
    ∧ ((renderChoice src).isLink = true
        → renderChoice src = RenderedSource.link (jsInterp src.url) (jsInterp src.title))
    ∧ ((renderChoice src).isLink = false
        → renderChoice src = RenderedSource.label (jsOr src.source "Document")) := by
  by_cases hc : src.type = some "web" ∧ optTruthy src.url = true
  · simp [renderChoice, hc, RenderedSource.isLink]
  · simp [renderChoice, hc, RenderedSource.isLink]

/-- C10: the widget's webSearchEnabled flag is true unless the constructor
option is exactly the boolean false: strict inequality makes every other
value — 0, null, undefined, the empty string, and the string "false" —
yield true; the constructed widget carries exactly this flag. -/
theorem c10_web_search_default (v : JSVal) (h : HealthOutcome) :
    (webSearchEnabledOf v = false ↔ v = JSVal.bool false)
    ∧ (mkWidget v h).webSearchEnabled = webSearchEnabledOf v
    ∧ webSearchEnabledOf (JSVal.num 0) = true
    ∧ webSearchEnabledOf JSVal.jsNull = true
    ∧ webSearchEnabledOf JSVal.undef = true
    ∧ webSearchEnabledOf (JSVal.str "") = true
    ∧ webSearchEnabledOf (JSVal.str "false") = true
    ∧ webSearchEnabledOf (JSVal.bool false) = false := by
  refine ⟨?_, rfl, by decide, by decide, by decide, by decide, by decide, by decide⟩
  simp [webSearchEnabledOf]
